import Mathlib

/-!
Verification of the recursive-retrieval core of wget (src/recur.c).

The development shallowly embeds the crawl controller: the URL queue, the
seen-set ("blacklist"), the admission filter download_child, the redirect
arbiter descend_redirect, and the breadth-first crawl loop retrieve_tree.
External collaborators (URL parsing, the fetcher, link extractors, the
robots parser/matcher, accept/reject predicates) are parameters, matching
the module boundary of the C file.
-/

namespace WgetRecur

/-- URL schemes, as in url.h (the build is taken to have SSL, so HTTPS and
FTPS exist, matching the HAVE_SSL sections of recur.c). -/
inductive url_scheme where
  | SCHEME_HTTP
  | SCHEME_HTTPS
  | SCHEME_FTP
  | SCHEME_FTPS
  | SCHEME_INVALID
deriving DecidableEq, Repr

/-- Modelled from the spec: the INFINITE_RECURSION sentinel of recur.h
(missing from the sources), the reclevel value meaning "no depth bound".
It is a sentinel distinct from every non-negative level. -/
def INFINITE_RECURSION : Int := -1

/-- The fields of struct url (url.h) that recur.c reads. -/
structure Url where
  scheme : url_scheme
  host : String
  port : Int
  path : String
  dir : String
  file : String
  user : Option String
  url : String
deriving DecidableEq, Repr

/-- The fields of struct urlpos (url.h) that recur.c reads: a parsed URL
plus the link flags set by the extractors. -/
structure urlpos where
  url : Url
  link_relative_p : Bool
  link_inline_p : Bool
  link_expect_html : Bool
  link_expect_css : Bool
  ignore_when_downloading : Bool
deriving DecidableEq, Repr

/-- The global options consumed by recur.c (struct options, options.h).
Boolean options are Bool; reclevel and quota are C ints, so Int.  A quota
of 0 means "no quota", as in the C truthiness test of opt.quota.  The
includes/excludes fields record whether the respective directory lists are
non-null. -/
structure Options where
  https_only : Bool
  follow_ftp : Bool
  relative_only : Bool
  no_parent : Bool
  page_requisites : Bool
  includes : Bool
  excludes : Bool
  spanhost : Bool
  use_robots : Bool
  spider : Bool
  delete_after : Bool
  reclevel : Int
  quota : Int
deriving Repr

/-- Modelled from the spec: robots specifications are opaque to this core.
A value of this type records whether it came from parsing a retrieved
robots file (res_parse_from_file) or is the empty dummy produced by
res_parse ("", 0) after a failed fetch.  Path matching on it is an
external parameter (res_match_path). -/
inductive RobotSpecs where
  | fromFile (rfile : String)
  | dummy
deriving DecidableEq, Repr

/-- External collaborators of recur.c, out of scope per the spec: the
accept/reject predicates of utils.c and host.c, the robots API of res.c,
and the URL parser.  A crawl is parametric in them. -/
structure Externals where
  accept_domain : Url → Bool
  accdir : String → Bool
  accept_url : String → Bool
  acceptable : String → Bool
  has_html_suffix_p : String → Bool
  subdir_p : String → String → Bool
  res_retrieve_file : Url → Option String
  res_match_path : RobotSpecs → String → Bool
  url_parse : String → Url

/-- Modelled from the spec: the url.c helper schemes_are_similar_p (missing
from the sources).  Two schemes are similar when they are equal or when
both are HTTP-like, i.e. HTTP and HTTPS. -/
def schemes_are_similar_p (a b : url_scheme) : Bool :=
  decide (a = b)
    || (decide (a = url_scheme.SCHEME_HTTP) && decide (b = url_scheme.SCHEME_HTTPS))
    || (decide (a = url_scheme.SCHEME_HTTPS) && decide (b = url_scheme.SCHEME_HTTP))

/-- ASCII lowercasing of one character, the tolower conversion strcasecmp
performs on each byte. -/
def ascii_tolower (c : Char) : Char :=
  if 'A' ≤ c ∧ c ≤ 'Z' then Char.ofNat (c.toNat + 32) else c

/-- ASCII case-insensitive string equality, the libc strcasecmp comparison
used for host names in download_child. -/
def strcasecmp_eq (a b : String) : Bool :=
  a.data.map ascii_tolower == b.data.map ascii_tolower

/-- Value of a hexadecimal digit character, if it is one. -/
def hexval (c : Char) : Option Nat :=
  if '0' ≤ c ∧ c ≤ '9' then some (c.toNat - '0'.toNat)
  else if 'a' ≤ c ∧ c ≤ 'f' then some (c.toNat - 'a'.toNat + 10)
  else if 'A' ≤ c ∧ c ≤ 'F' then some (c.toNat - 'A'.toNat + 10)
  else none

/-- Modelled from the spec: percent-decoding of a URL string, the url.c
function url_unescape (missing from the sources).  Every valid %XX escape
is collapsed to the byte it denotes; an invalid escape is left as the
literal percent character followed by the remaining text. -/
def url_unescape_list : List Char → List Char
  | [] => []
  | '%' :: h1 :: h2 :: rest =>
    match hexval h1, hexval h2 with
    | some a, some b => Char.ofNat (16 * a + b) :: url_unescape_list rest
    | _, _ => '%' :: url_unescape_list (h1 :: h2 :: rest)
  | c :: rest => c :: url_unescape_list rest

/-- Percent-decoding on String, wrapping url_unescape_list. -/
def url_unescape (s : String) : String :=
  String.mk (url_unescape_list s.data)

/-- The seen-set is a set of strings; this core stores percent-decoded
keys.  A list of the decoded strings represents the string hash set. -/
def blacklist_add (blacklist : List String) (url : String) : List String :=
  url_unescape url :: blacklist

/-- Seen-set membership; the argument is percent-decoded before lookup,
as in blacklist_contains of recur.c. -/
def blacklist_contains (blacklist : List String) (url : String) : Bool :=
  blacklist.contains (url_unescape url)

/-- Reject reasons of the admission filter, the reject_reason enum of
recur.c. -/
inductive reject_reason where
  | WG_RR_SUCCESS
  | WG_RR_BLACKLIST
  | WG_RR_NOTHTTPS
  | WG_RR_NONHTTP
  | WG_RR_ABSOLUTE
  | WG_RR_DOMAIN
  | WG_RR_PARENT
  | WG_RR_LIST
  | WG_RR_REGEX
  | WG_RR_RULES
  | WG_RR_SPANNEDHOST
  | WG_RR_ROBOTS
deriving DecidableEq, Repr

/-- The robots cache of res.c: registered specs keyed by (host, port).
It is the mutable state the robots rule of download_child reads and
extends. -/
def RobotsCache := List ((String × Int) × RobotSpecs)

/-- Lookup in the robots cache, the res.c function res_get_specs. -/
def res_get_specs (cache : RobotsCache) (host : String) (port : Int) :
    Option RobotSpecs :=
  match cache with
  | [] => none
  | (k, s) :: rest => if k = (host, port) then some s else res_get_specs rest host port

/-- Registration in the robots cache, the res.c function
res_register_specs. -/
def res_register_specs (cache : RobotsCache) (host : String) (port : Int)
    (specs : RobotSpecs) : RobotsCache :=
  ((host, port), specs) :: cache

/-- The mutable sets threaded through the admission filter: the seen-set
and the robots cache. -/
structure CrawlSets where
  blacklist : List String
  robots : RobotsCache

/-- Result of one download_child call: the decision, the updated sets, and
the list of (host, port) keys for which res_retrieve_file was invoked
during the call (empty or a singleton). -/
structure DCResult where
  reason : reject_reason
  sets : CrawlSets
  robots_fetched : List (String × Int)

/-- The admission filter download_child of recur.c: decides whether child
UPOS, found in PARENT at depth DEPTH of a crawl started at
START_URL_PARSED, is to be enqueued.  Evaluates the rule chain in source
order, short-circuiting on the first rejection; the robots rule may fetch
and register a robots spec and may add the child URL to the seen-set. -/
def download_child (E : Externals) (opt : Options) (upos : urlpos) (parent : Url)
    (depth : Int) (start_url_parsed : Url) (st : CrawlSets) : DCResult :=
  let u := upos.url
  let url := u.url
  if blacklist_contains st.blacklist url then
    { reason := .WG_RR_BLACKLIST, sets := st, robots_fetched := [] }
  else if opt.https_only ∧ u.scheme ≠ url_scheme.SCHEME_HTTPS then
    { reason := .WG_RR_NOTHTTPS, sets := st, robots_fetched := [] }
  else
    let u_scheme_like_http := schemes_are_similar_p u.scheme url_scheme.SCHEME_HTTP
    if ¬u_scheme_like_http
        ∧ ¬((u.scheme = url_scheme.SCHEME_FTP ∨ u.scheme = url_scheme.SCHEME_FTPS)
              ∧ opt.follow_ftp) then
      { reason := .WG_RR_NONHTTP, sets := st, robots_fetched := [] }
    else if u_scheme_like_http ∧ opt.relative_only ∧ ¬upos.link_relative_p then
      { reason := .WG_RR_ABSOLUTE, sets := st, robots_fetched := [] }
    else if ¬E.accept_domain u then
      { reason := .WG_RR_DOMAIN, sets := st, robots_fetched := [] }
    else if opt.no_parent
        ∧ schemes_are_similar_p u.scheme start_url_parsed.scheme
        ∧ strcasecmp_eq u.host start_url_parsed.host
        ∧ (u.scheme ≠ start_url_parsed.scheme ∨ u.port = start_url_parsed.port)
        ∧ ¬(opt.page_requisites ∧ upos.link_inline_p)
        ∧ ¬E.subdir_p start_url_parsed.dir u.dir then
      { reason := .WG_RR_PARENT, sets := st, robots_fetched := [] }
    else if (opt.includes ∨ opt.excludes) ∧ ¬E.accdir u.dir then
      { reason := .WG_RR_LIST, sets := st, robots_fetched := [] }
    else if ¬E.accept_url url then
      { reason := .WG_RR_REGEX, sets := st, robots_fetched := [] }
    else if u.file ≠ ""
        ∧ ¬(E.has_html_suffix_p u.file
              ∧ (opt.reclevel = INFINITE_RECURSION
                  ∨ depth < opt.reclevel - 1
                  ∨ opt.page_requisites))
        ∧ ¬E.acceptable u.file then
      { reason := .WG_RR_RULES, sets := st, robots_fetched := [] }
    else if schemes_are_similar_p u.scheme parent.scheme
        ∧ ¬opt.spanhost
        ∧ ¬strcasecmp_eq parent.host u.host then
      { reason := .WG_RR_SPANNEDHOST, sets := st, robots_fetched := [] }
    else if opt.use_robots ∧ u_scheme_like_http then
      match res_get_specs st.robots u.host u.port with
      | some specs =>
        if ¬E.res_match_path specs u.path then
          { reason := .WG_RR_ROBOTS,
            sets := { st with blacklist := blacklist_add st.blacklist url },
            robots_fetched := [] }
        else
          { reason := .WG_RR_SUCCESS, sets := st, robots_fetched := [] }
      | none =>
        let specs :=
          match E.res_retrieve_file u with
          | some rfile => RobotSpecs.fromFile rfile
          | none => RobotSpecs.dummy
        let st2 : CrawlSets :=
          { st with robots := res_register_specs st.robots u.host u.port specs }
        if ¬E.res_match_path specs u.path then
          { reason := .WG_RR_ROBOTS,
            sets := { st2 with blacklist := blacklist_add st2.blacklist url },
            robots_fetched := [(u.host, u.port)] }
        else
          { reason := .WG_RR_SUCCESS, sets := st2,
            robots_fetched := [(u.host, u.port)] }
    else
      { reason := .WG_RR_SUCCESS, sets := st, robots_fetched := [] }

/-- The synthetic child record descend_redirect builds around the parsed
redirect target: xnew0 zero-fills struct urlpos, so every link flag is
cleared. -/
def redirect_upos (E : Externals) (redirected : String) : urlpos :=
  { url := E.url_parse redirected, link_relative_p := false,
    link_inline_p := false, link_expect_html := false,
    link_expect_css := false, ignore_when_downloading := false }

/-- The redirect arbiter descend_redirect of recur.c: wraps the redirect
target in a synthetic child record (all link flags cleared, as xnew0
zero-fills struct urlpos) and runs the admission filter; SUCCESS, LIST and
REGEX all register the redirect URL in the seen-set and descend, any other
reason is passed through. -/
def descend_redirect (E : Externals) (opt : Options) (redirected : String)
    (orig_parsed : Url) (depth : Int) (start_url_parsed : Url)
    (st : CrawlSets) : DCResult :=
  let new_parsed := E.url_parse redirected
  let upos := redirect_upos E redirected
  let res := download_child E opt upos orig_parsed depth start_url_parsed st
  if res.reason = reject_reason.WG_RR_SUCCESS then
    { res with
      sets := { res.sets with
                blacklist := blacklist_add res.sets.blacklist new_parsed.url } }
  else if res.reason = reject_reason.WG_RR_LIST
      ∨ res.reason = reject_reason.WG_RR_REGEX then
    { res with
      reason := reject_reason.WG_RR_SUCCESS
      sets := { res.sets with
                blacklist := blacklist_add res.sets.blacklist new_parsed.url } }
  else res

/-! ### The admission rules as independent verdicts

Each rule of the download_child chain, stated on its own as a partial
verdict: some reason when the rule rejects, none when it passes.  These
definitions repeat the conditions of the source verbatim so that the chain
theorem relates the filter to the ordered list of rules. -/

/-- The robots spec the robots rule would consult: the cached one if the
(host, port) pair is registered, otherwise the spec that the fetch-and-
parse (or the dummy fallback) would produce. -/
def robots_spec_for (E : Externals) (st : CrawlSets) (u : Url) : RobotSpecs :=
  match res_get_specs st.robots u.host u.port with
  | some specs => specs
  | none =>
    match E.res_retrieve_file u with
    | some rfile => RobotSpecs.fromFile rfile
    | none => RobotSpecs.dummy

/-- Rule 1: seen-set check. -/
def rule_blacklist (st : CrawlSets) (upos : urlpos) : Option reject_reason :=
  if blacklist_contains st.blacklist upos.url.url then
    some reject_reason.WG_RR_BLACKLIST
  else none

/-- Rule 2: HTTPS-only. -/
def rule_nothttps (opt : Options) (upos : urlpos) : Option reject_reason :=
  if opt.https_only ∧ upos.url.scheme ≠ url_scheme.SCHEME_HTTPS then
    some reject_reason.WG_RR_NOTHTTPS
  else none

/-- Rule 3: scheme class. -/
def rule_scheme (opt : Options) (upos : urlpos) : Option reject_reason :=
  if ¬schemes_are_similar_p upos.url.scheme url_scheme.SCHEME_HTTP
      ∧ ¬((upos.url.scheme = url_scheme.SCHEME_FTP
            ∨ upos.url.scheme = url_scheme.SCHEME_FTPS)
          ∧ opt.follow_ftp) then
    some reject_reason.WG_RR_NONHTTP
  else none

/-- Rule 4: relative-only. -/
def rule_relative (opt : Options) (upos : urlpos) : Option reject_reason :=
  if schemes_are_similar_p upos.url.scheme url_scheme.SCHEME_HTTP
      ∧ opt.relative_only ∧ ¬upos.link_relative_p then
    some reject_reason.WG_RR_ABSOLUTE
  else none

/-- Rule 5: domain accept. -/
def rule_domain (E : Externals) (upos : urlpos) : Option reject_reason :=
  if ¬E.accept_domain upos.url then some reject_reason.WG_RR_DOMAIN else none

/-- Rule 6: no-parent. -/
def rule_no_parent (E : Externals) (opt : Options) (upos : urlpos)
    (start_url_parsed : Url) : Option reject_reason :=
  if opt.no_parent
      ∧ schemes_are_similar_p upos.url.scheme start_url_parsed.scheme
      ∧ strcasecmp_eq upos.url.host start_url_parsed.host
      ∧ (upos.url.scheme ≠ start_url_parsed.scheme
          ∨ upos.url.port = start_url_parsed.port)
      ∧ ¬(opt.page_requisites ∧ upos.link_inline_p)
      ∧ ¬E.subdir_p start_url_parsed.dir upos.url.dir then
    some reject_reason.WG_RR_PARENT
  else none

/-- Rule 7: directory include/exclude lists. -/
def rule_list (E : Externals) (opt : Options) (upos : urlpos) :
    Option reject_reason :=
  if (opt.includes ∨ opt.excludes) ∧ ¬E.accdir upos.url.dir then
    some reject_reason.WG_RR_LIST
  else none

/-- Rule 8: URL regex accept. -/
def rule_regex (E : Externals) (upos : urlpos) : Option reject_reason :=
  if ¬E.accept_url upos.url.url then some reject_reason.WG_RR_REGEX else none

/-- Rule 9: suffix accept/reject rules, with the directory-like and
non-leaf-HTML exemptions. -/
def rule_suffix (E : Externals) (opt : Options) (upos : urlpos) (depth : Int) :
    Option reject_reason :=
  if upos.url.file ≠ ""
      ∧ ¬(E.has_html_suffix_p upos.url.file
            ∧ (opt.reclevel = INFINITE_RECURSION
                ∨ depth < opt.reclevel - 1
                ∨ opt.page_requisites))
      ∧ ¬E.acceptable upos.url.file then
    some reject_reason.WG_RR_RULES
  else none

/-- Rule 10: span-host. -/
def rule_spanhost (opt : Options) (upos : urlpos) (parent : Url) :
    Option reject_reason :=
  if schemes_are_similar_p upos.url.scheme parent.scheme
      ∧ ¬opt.spanhost
      ∧ ¬strcasecmp_eq parent.host upos.url.host then
    some reject_reason.WG_RR_SPANNEDHOST
  else none

/-- Rule 11: robots exclusion, judged against the spec the call would use
(cached, freshly parsed, or dummy). -/
def rule_robots (E : Externals) (opt : Options) (st : CrawlSets)
    (upos : urlpos) : Option reject_reason :=
  if opt.use_robots ∧ schemes_are_similar_p upos.url.scheme url_scheme.SCHEME_HTTP then
    if ¬E.res_match_path (robots_spec_for E st upos.url) upos.url.path then
      some reject_reason.WG_RR_ROBOTS
    else none
  else none

/-- First rejection of an ordered list of rule verdicts; SUCCESS when
every rule passes. -/
def first_reject : List (Option reject_reason) → reject_reason
  | [] => reject_reason.WG_RR_SUCCESS
  | some r :: _ => r
  | none :: rest => first_reject rest

/-- The ordered rule chain of download_child for a given call. -/
def download_child_rules (E : Externals) (opt : Options) (upos : urlpos)
    (parent : Url) (depth : Int) (start_url_parsed : Url) (st : CrawlSets) :
    List (Option reject_reason) :=
  [rule_blacklist st upos,
   rule_nothttps opt upos,
   rule_scheme opt upos,
   rule_relative opt upos,
   rule_domain E upos,
   rule_no_parent E opt upos start_url_parsed,
   rule_list E opt upos,
   rule_regex E upos,
   rule_suffix E opt upos depth,
   rule_spanhost opt upos parent,
   rule_robots E opt st upos]

/-- C1: download_child evaluates the admission rules in the fixed order
seen-set, HTTPS-only, scheme class, relative-only, domain, no-parent,
directory lists, URL regex, suffix rules, span-host, robots, and returns
the reject reason of the first rule that rejects, SUCCESS if none does; a
child violating an earlier and a later rule receives the earlier rule's
reason. -/
theorem download_child_first_rejection (E : Externals) (opt : Options)
    (upos : urlpos) (parent : Url) (depth : Int) (start_url_parsed : Url)
    (st : CrawlSets) :
    (download_child E opt upos parent depth start_url_parsed st).reason =
      first_reject (download_child_rules E opt upos parent depth start_url_parsed st) := by
  simp only [download_child, download_child_rules, rule_blacklist, rule_nothttps,
    rule_scheme, rule_relative, rule_domain, rule_no_parent, rule_list,
    rule_regex, rule_suffix, rule_spanhost, rule_robots]
  by_cases h1 : blacklist_contains st.blacklist upos.url.url
  · simp only [if_pos h1, first_reject]
  simp only [if_neg h1, first_reject]
  by_cases h2 : opt.https_only ∧ upos.url.scheme ≠ url_scheme.SCHEME_HTTPS
  · simp only [if_pos h2, first_reject]
  simp only [if_neg h2, first_reject]
  by_cases h3 : ¬schemes_are_similar_p upos.url.scheme url_scheme.SCHEME_HTTP
      ∧ ¬((upos.url.scheme = url_scheme.SCHEME_FTP
            ∨ upos.url.scheme = url_scheme.SCHEME_FTPS)
          ∧ opt.follow_ftp)
  · simp only [if_pos h3, first_reject]
  simp only [if_neg h3, first_reject]
  by_cases h4 : schemes_are_similar_p upos.url.scheme url_scheme.SCHEME_HTTP
      ∧ opt.relative_only ∧ ¬upos.link_relative_p
  · simp only [if_pos h4, first_reject]
  simp only [if_neg h4, first_reject]
  by_cases h5 : ¬E.accept_domain upos.url
  · simp only [if_pos h5, first_reject]
  simp only [if_neg h5, first_reject]
  by_cases h6 : opt.no_parent
      ∧ schemes_are_similar_p upos.url.scheme start_url_parsed.scheme
      ∧ strcasecmp_eq upos.url.host start_url_parsed.host
      ∧ (upos.url.scheme ≠ start_url_parsed.scheme
          ∨ upos.url.port = start_url_parsed.port)
      ∧ ¬(opt.page_requisites ∧ upos.link_inline_p)
      ∧ ¬E.subdir_p start_url_parsed.dir upos.url.dir
  · simp only [if_pos h6, first_reject]
  simp only [if_neg h6, first_reject]
  by_cases h7 : (opt.includes ∨ opt.excludes) ∧ ¬E.accdir upos.url.dir
  · simp only [if_pos h7, first_reject]
  simp only [if_neg h7, first_reject]
  by_cases h8 : ¬E.accept_url upos.url.url
  · simp only [if_pos h8, first_reject]
  simp only [if_neg h8, first_reject]
  by_cases h9 : upos.url.file ≠ ""
      ∧ ¬(E.has_html_suffix_p upos.url.file
            ∧ (opt.reclevel = INFINITE_RECURSION
                ∨ depth < opt.reclevel - 1
                ∨ opt.page_requisites))
      ∧ ¬E.acceptable upos.url.file
  · simp only [if_pos h9, first_reject]
  simp only [if_neg h9, first_reject]
  by_cases h10 : schemes_are_similar_p upos.url.scheme parent.scheme
      ∧ ¬opt.spanhost
      ∧ ¬strcasecmp_eq parent.host upos.url.host
  · simp only [if_pos h10, first_reject]
  simp only [if_neg h10, first_reject]
  by_cases h11 : opt.use_robots
      ∧ schemes_are_similar_p upos.url.scheme url_scheme.SCHEME_HTTP
  · simp only [if_pos h11]
    cases hg : res_get_specs st.robots upos.url.host upos.url.port with
    | some specs =>
      simp only [robots_spec_for, hg]
      by_cases h12 : ¬E.res_match_path specs upos.url.path
      · simp only [if_pos h12, first_reject]
      · simp only [if_neg h12, first_reject]
    | none =>
      cases hr : E.res_retrieve_file upos.url with
      | some rfile =>
        simp only [robots_spec_for, hg, hr]
        by_cases h12 : ¬E.res_match_path (RobotSpecs.fromFile rfile) upos.url.path
        · simp only [if_pos h12, first_reject]
        · simp only [if_neg h12, first_reject]
      | none =>
        simp only [robots_spec_for, hg, hr]
        by_cases h12 : ¬E.res_match_path RobotSpecs.dummy upos.url.path
        · simp only [if_pos h12, first_reject]
        · simp only [if_neg h12, first_reject]
  · simp only [if_neg h11, first_reject]

/-! ### The no-parent rule (C2) -/

/-- Small helper: a rule verdict of the shape used above that evaluates to
none implies its condition is false. -/
theorem opt_rule_none {C : Prop} [Decidable C] {r : reject_reason}
    (h : (if C then some r else none) = none) : ¬C := by
  intro hc
  rw [if_pos hc] at h
  exact Option.noConfusion h

/-- The no-parent trigger as C2 words it: no-parent configured, shared
scheme class, shared host (case-insensitive), EITHER SCHEME IDENTICAL OR
PORT IDENTICAL, not (page-requisites and inline), and the start directory
not a prefix of the child directory.  Stated from the claim, to be
compared with the code. -/
def no_parent_trigger_claim (E : Externals) (opt : Options) (upos : urlpos)
    (start_url_parsed : Url) : Bool :=
  opt.no_parent
    && schemes_are_similar_p upos.url.scheme start_url_parsed.scheme
    && strcasecmp_eq upos.url.host start_url_parsed.host
    && (decide (upos.url.scheme = start_url_parsed.scheme)
        || decide (upos.url.port = start_url_parsed.port))
    && !(opt.page_requisites && upos.link_inline_p)
    && !(E.subdir_p start_url_parsed.dir upos.url.dir)

/-- External collaborators that accept everything, never treat a
directory as a subdirectory of another, and have no robots file. -/
def extPermissive : Externals :=
  { accept_domain := fun _ => true
    accdir := fun _ => true
    accept_url := fun _ => true
    acceptable := fun _ => true
    has_html_suffix_p := fun _ => false
    subdir_p := fun _ _ => false
    res_retrieve_file := fun _ => none
    res_match_path := fun _ _ => true
    url_parse := fun s =>
      { scheme := url_scheme.SCHEME_HTTP, host := "h", port := 80, path := "/r",
        dir := "", file := "r", user := none, url := s } }

/-- Baseline options: everything off, reclevel 5, no quota. -/
def optBase : Options :=
  { https_only := false, follow_ftp := false, relative_only := false,
    no_parent := false, page_requisites := false, includes := false,
    excludes := false, spanhost := false, use_robots := false,
    spider := false, delete_after := false, reclevel := 5, quota := 0 }

/-- The start URL of the sample crawl. -/
def urlStartA : Url :=
  { scheme := url_scheme.SCHEME_HTTP, host := "h", port := 80, path := "/a/",
    dir := "/a", file := "", user := none, url := "http://h/a/" }

/-- A child on the same host and scheme but on port 8080. -/
def urlChildPort : Url :=
  { scheme := url_scheme.SCHEME_HTTP, host := "h", port := 8080, path := "/b/",
    dir := "/b", file := "", user := none, url := "http://h:8080/b/" }

/-- A child on the same host, scheme and port, outside the start
directory. -/
def urlChildSame : Url :=
  { scheme := url_scheme.SCHEME_HTTP, host := "h", port := 80, path := "/b/",
    dir := "/b", file := "", user := none, url := "http://h/b/" }

/-- Wrap a URL as an extracted link record. -/
def uposOf (u : Url) : urlpos :=
  { url := u, link_relative_p := true, link_inline_p := false,
    link_expect_html := true, link_expect_css := false,
    ignore_when_downloading := false }

/-- The empty crawl state. -/
def emptySets : CrawlSets := { blacklist := [], robots := [] }

/-- C2 counterexample: with no-parent configured, a child that shares the
start URL's scheme but differs in port satisfies the claim's trigger
("either scheme identical or port identical" holds via the scheme), yet
download_child does not return PARENT: the code's clause is "scheme
DIFFERENT or port identical", so the rule is skipped and the child is
admitted. -/
theorem no_parent_claim_counterexample :
    (download_child extPermissive { optBase with no_parent := true }
        (uposOf urlChildPort) urlStartA 0 urlStartA emptySets).reason
        = reject_reason.WG_RR_SUCCESS
    ∧ no_parent_trigger_claim extPermissive { optBase with no_parent := true }
        (uposOf urlChildPort) urlStartA = true := by
  constructor
  · rfl
  · rfl

/-- C2 amended: assuming rules 1-5 (seen-set, HTTPS-only, scheme class,
relative-only, domain) all pass, download_child returns PARENT exactly
when: no-parent is configured; the child and the start URL share
scheme-class; they share host case-insensitively; either the schemes
DIFFER or the ports are identical; it is not the case that page-requisites
is enabled and the link is inline; and the start URL's directory is not a
prefix of the child's directory. -/
theorem download_child_parent_iff (E : Externals) (opt : Options)
    (upos : urlpos) (parent : Url) (depth : Int) (start_url_parsed : Url)
    (st : CrawlSets)
    (hb : rule_blacklist st upos = none)
    (hh : rule_nothttps opt upos = none)
    (hs : rule_scheme opt upos = none)
    (hrel : rule_relative opt upos = none)
    (hd : rule_domain E upos = none) :
    (download_child E opt upos parent depth start_url_parsed st).reason
        = reject_reason.WG_RR_PARENT
      ↔ (opt.no_parent
          ∧ schemes_are_similar_p upos.url.scheme start_url_parsed.scheme
          ∧ strcasecmp_eq upos.url.host start_url_parsed.host
          ∧ (upos.url.scheme ≠ start_url_parsed.scheme
              ∨ upos.url.port = start_url_parsed.port)
          ∧ ¬(opt.page_requisites ∧ upos.link_inline_p)
          ∧ ¬E.subdir_p start_url_parsed.dir upos.url.dir) := by
  simp only [rule_blacklist] at hb
  simp only [rule_nothttps] at hh
  simp only [rule_scheme] at hs
  simp only [rule_relative] at hrel
  simp only [rule_domain] at hd
  have h1 := opt_rule_none hb
  have h2 := opt_rule_none hh
  have h3 := opt_rule_none hs
  have h4 := opt_rule_none hrel
  have h5 := opt_rule_none hd
  simp only [download_child]
  simp only [if_neg h1, if_neg h2, if_neg h3, if_neg h4, if_neg h5]
  by_cases h6 : opt.no_parent
      ∧ schemes_are_similar_p upos.url.scheme start_url_parsed.scheme
      ∧ strcasecmp_eq upos.url.host start_url_parsed.host
      ∧ (upos.url.scheme ≠ start_url_parsed.scheme
          ∨ upos.url.port = start_url_parsed.port)
      ∧ ¬(opt.page_requisites ∧ upos.link_inline_p)
      ∧ ¬E.subdir_p start_url_parsed.dir upos.url.dir
  · simp only [if_pos h6]
    simpa using h6
  · simp only [if_neg h6]
    apply iff_of_false ?_ h6
    by_cases h7 : (opt.includes ∨ opt.excludes) ∧ ¬E.accdir upos.url.dir
    · simp only [if_pos h7]; simp
    simp only [if_neg h7]
    by_cases h8 : ¬E.accept_url upos.url.url
    · simp only [if_pos h8]; simp
    simp only [if_neg h8]
    by_cases h9 : upos.url.file ≠ ""
        ∧ ¬(E.has_html_suffix_p upos.url.file
              ∧ (opt.reclevel = INFINITE_RECURSION
                  ∨ depth < opt.reclevel - 1
                  ∨ opt.page_requisites))
        ∧ ¬E.acceptable upos.url.file
    · simp only [if_pos h9]; simp
    simp only [if_neg h9]
    by_cases h10 : schemes_are_similar_p upos.url.scheme parent.scheme
        ∧ ¬opt.spanhost
        ∧ ¬strcasecmp_eq parent.host upos.url.host
    · simp only [if_pos h10]; simp
    simp only [if_neg h10]
    by_cases h11 : opt.use_robots
        ∧ schemes_are_similar_p upos.url.scheme url_scheme.SCHEME_HTTP
    · simp only [if_pos h11]
      cases hg : res_get_specs st.robots upos.url.host upos.url.port with
      | some specs =>
        by_cases h12 : ¬E.res_match_path specs upos.url.path
        · simp only [if_pos h12]; simp
        · simp only [if_neg h12]; simp
      | none =>
        cases hr : E.res_retrieve_file upos.url with
        | some rfile =>
          by_cases h12 : ¬E.res_match_path (RobotSpecs.fromFile rfile) upos.url.path
          · simp only [if_pos h12]; simp
          · simp only [if_neg h12]; simp
        | none =>
          by_cases h12 : ¬E.res_match_path RobotSpecs.dummy upos.url.path
          · simp only [if_pos h12]; simp
          · simp only [if_neg h12]; simp
    · simp only [if_neg h11]; simp

/-- C2 amended, witness: a same-scheme same-port child outside the start
directory is rejected with PARENT when no-parent is configured. -/
theorem download_child_parent_iff_witness :
    (download_child extPermissive { optBase with no_parent := true }
        (uposOf urlChildSame) urlStartA 0 urlStartA emptySets).reason
        = reject_reason.WG_RR_PARENT :=
  (download_child_parent_iff extPermissive { optBase with no_parent := true }
      (uposOf urlChildSame) urlStartA 0 urlStartA emptySets
      rfl rfl rfl rfl rfl).mpr
    (by refine ⟨rfl, rfl, rfl, Or.inr rfl, ?_, ?_⟩ <;> simp [optBase, extPermissive, uposOf])

/-! ### Seen-set bookkeeping of the admission filter (C5, C7) -/

/-- Case analysis on the outcome of one download_child call: either the
sets are untouched and nothing was fetched (any reason but ROBOTS), or a
cached robots spec disallowed the path (ROBOTS, URL added to the
seen-set), or the (host, port) pair was unregistered and a spec was
fetched and registered, with the path then allowed (SUCCESS) or
disallowed (ROBOTS with the URL added). -/
theorem download_child_result_cases (E : Externals) (opt : Options)
    (upos : urlpos) (parent : Url) (depth : Int) (start_url_parsed : Url)
    (st : CrawlSets) :
    (∃ r, r ≠ reject_reason.WG_RR_ROBOTS
        ∧ download_child E opt upos parent depth start_url_parsed st
            = { reason := r, sets := st, robots_fetched := [] })
    ∨ download_child E opt upos parent depth start_url_parsed st
        = { reason := reject_reason.WG_RR_ROBOTS,
            sets := { st with blacklist := blacklist_add st.blacklist upos.url.url },
            robots_fetched := [] }
    ∨ (∃ specs, res_get_specs st.robots upos.url.host upos.url.port = none
        ∧ (download_child E opt upos parent depth start_url_parsed st
              = { reason := reject_reason.WG_RR_SUCCESS,
                  sets := { blacklist := st.blacklist,
                            robots := res_register_specs st.robots upos.url.host
                                        upos.url.port specs },
                  robots_fetched := [(upos.url.host, upos.url.port)] }
            ∨ download_child E opt upos parent depth start_url_parsed st
              = { reason := reject_reason.WG_RR_ROBOTS,
                  sets := { blacklist := blacklist_add st.blacklist upos.url.url,
                            robots := res_register_specs st.robots upos.url.host
                                        upos.url.port specs },
                  robots_fetched := [(upos.url.host, upos.url.port)] })) := by
  simp only [download_child]
  by_cases h1 : blacklist_contains st.blacklist upos.url.url
  · simp only [if_pos h1]
    exact Or.inl ⟨reject_reason.WG_RR_BLACKLIST, by decide, rfl⟩
  simp only [if_neg h1]
  by_cases h2 : opt.https_only ∧ upos.url.scheme ≠ url_scheme.SCHEME_HTTPS
  · simp only [if_pos h2]
    exact Or.inl ⟨reject_reason.WG_RR_NOTHTTPS, by decide, rfl⟩
  simp only [if_neg h2]
  by_cases h3 : ¬schemes_are_similar_p upos.url.scheme url_scheme.SCHEME_HTTP
      ∧ ¬((upos.url.scheme = url_scheme.SCHEME_FTP
            ∨ upos.url.scheme = url_scheme.SCHEME_FTPS)
          ∧ opt.follow_ftp)
  · simp only [if_pos h3]
    exact Or.inl ⟨reject_reason.WG_RR_NONHTTP, by decide, rfl⟩
  simp only [if_neg h3]
  by_cases h4 : schemes_are_similar_p upos.url.scheme url_scheme.SCHEME_HTTP
      ∧ opt.relative_only ∧ ¬upos.link_relative_p
  · simp only [if_pos h4]
    exact Or.inl ⟨reject_reason.WG_RR_ABSOLUTE, by decide, rfl⟩
  simp only [if_neg h4]
  by_cases h5 : ¬E.accept_domain upos.url
  · simp only [if_pos h5]
    exact Or.inl ⟨reject_reason.WG_RR_DOMAIN, by decide, rfl⟩
  simp only [if_neg h5]
  by_cases h6 : opt.no_parent
      ∧ schemes_are_similar_p upos.url.scheme start_url_parsed.scheme
      ∧ strcasecmp_eq upos.url.host start_url_parsed.host
      ∧ (upos.url.scheme ≠ start_url_parsed.scheme
          ∨ upos.url.port = start_url_parsed.port)
      ∧ ¬(opt.page_requisites ∧ upos.link_inline_p)
      ∧ ¬E.subdir_p start_url_parsed.dir upos.url.dir
  · simp only [if_pos h6]
    exact Or.inl ⟨reject_reason.WG_RR_PARENT, by decide, rfl⟩
  simp only [if_neg h6]
  by_cases h7 : (opt.includes ∨ opt.excludes) ∧ ¬E.accdir upos.url.dir
  · simp only [if_pos h7]
    exact Or.inl ⟨reject_reason.WG_RR_LIST, by decide, rfl⟩
  simp only [if_neg h7]
  by_cases h8 : ¬E.accept_url upos.url.url
  · simp only [if_pos h8]
    exact Or.inl ⟨reject_reason.WG_RR_REGEX, by decide, rfl⟩
  simp only [if_neg h8]
  by_cases h9 : upos.url.file ≠ ""
      ∧ ¬(E.has_html_suffix_p upos.url.file
            ∧ (opt.reclevel = INFINITE_RECURSION
                ∨ depth < opt.reclevel - 1
                ∨ opt.page_requisites))
      ∧ ¬E.acceptable upos.url.file
  · simp only [if_pos h9]
    exact Or.inl ⟨reject_reason.WG_RR_RULES, by decide, rfl⟩
  simp only [if_neg h9]
  by_cases h10 : schemes_are_similar_p upos.url.scheme parent.scheme
      ∧ ¬opt.spanhost
      ∧ ¬strcasecmp_eq parent.host upos.url.host
  · simp only [if_pos h10]
    exact Or.inl ⟨reject_reason.WG_RR_SPANNEDHOST, by decide, rfl⟩
  simp only [if_neg h10]
  by_cases h11 : opt.use_robots
      ∧ schemes_are_similar_p upos.url.scheme url_scheme.SCHEME_HTTP
  · simp only [if_pos h11]
    cases hg : res_get_specs st.robots upos.url.host upos.url.port with
    | some specs =>
      by_cases h12 : ¬E.res_match_path specs upos.url.path
      · simp only [if_pos h12]
        exact Or.inr (Or.inl trivial)
      · simp only [if_neg h12]
        exact Or.inl ⟨reject_reason.WG_RR_SUCCESS, by decide, rfl⟩
    | none =>
      cases hr : E.res_retrieve_file upos.url with
      | some rfile =>
        by_cases h12 : ¬E.res_match_path (RobotSpecs.fromFile rfile) upos.url.path
        · simp only [if_pos h12]
          exact Or.inr (Or.inr ⟨RobotSpecs.fromFile rfile, trivial, Or.inr rfl⟩)
        · simp only [if_neg h12]
          exact Or.inr (Or.inr ⟨RobotSpecs.fromFile rfile, trivial, Or.inl rfl⟩)
      | none =>
        by_cases h12 : ¬E.res_match_path RobotSpecs.dummy upos.url.path
        · simp only [if_pos h12]
          exact Or.inr (Or.inr ⟨RobotSpecs.dummy, trivial, Or.inr rfl⟩)
        · simp only [if_neg h12]
          exact Or.inr (Or.inr ⟨RobotSpecs.dummy, trivial, Or.inl rfl⟩)
  · simp only [if_neg h11]
    exact Or.inl ⟨reject_reason.WG_RR_SUCCESS, by decide, rfl⟩

/-- The seen-set after a download_child call is either unchanged or has
exactly the child's URL added (the robots-disallow side effect). -/
theorem download_child_blacklist_cases (E : Externals) (opt : Options)
    (upos : urlpos) (parent : Url) (depth : Int) (start_url_parsed : Url)
    (st : CrawlSets) :
    (download_child E opt upos parent depth start_url_parsed st).sets.blacklist
        = st.blacklist
    ∨ (download_child E opt upos parent depth start_url_parsed st).sets.blacklist
        = blacklist_add st.blacklist upos.url.url := by
  rcases download_child_result_cases E opt upos parent depth start_url_parsed st with
    ⟨r, hne, heq⟩ | heq | ⟨specs, hn, heq | heq⟩ <;> rw [heq] <;> simp

/-- When download_child answers ROBOTS, the seen-set it returns is the old
one with the child's URL added. -/
theorem download_child_robots_adds (E : Externals) (opt : Options)
    (upos : urlpos) (parent : Url) (depth : Int) (start_url_parsed : Url)
    (st : CrawlSets) :
    (download_child E opt upos parent depth start_url_parsed st).reason
        = reject_reason.WG_RR_ROBOTS →
    (download_child E opt upos parent depth start_url_parsed st).sets.blacklist
        = blacklist_add st.blacklist upos.url.url := by
  intro h
  rcases download_child_result_cases E opt upos parent depth start_url_parsed st with
    ⟨r, hne, heq⟩ | heq | ⟨specs, hn, heq | heq⟩ <;> rw [heq] at h ⊢ <;> simp_all

/-- A URL already in the seen-set is rejected BLACKLIST by the first
rule. -/
theorem download_child_blacklisted (E : Externals) (opt : Options)
    (upos : urlpos) (parent : Url) (depth : Int) (start_url_parsed : Url)
    (st : CrawlSets)
    (h : blacklist_contains st.blacklist upos.url.url = true) :
    (download_child E opt upos parent depth start_url_parsed st).reason
        = reject_reason.WG_RR_BLACKLIST := by
  simp only [download_child, if_pos h]

/-- C5: when download_child reaches the robots rule and the cached spec
disallows the child's path, the child's URL string is added to the
seen-set before ROBOTS is returned; a download_child call never removes
seen-set entries; and a later invocation on a URL with the same decoded
string, against any state carrying the returned seen-set, answers
BLACKLIST at the first rule. -/
theorem download_child_robots_then_blacklist (E : Externals) (opt : Options)
    (upos : urlpos) (parent : Url) (depth : Int) (start_url_parsed : Url)
    (st : CrawlSets) :
    ((download_child E opt upos parent depth start_url_parsed st).reason
        = reject_reason.WG_RR_ROBOTS →
      blacklist_contains
        (download_child E opt upos parent depth start_url_parsed st).sets.blacklist
        upos.url.url = true)
    ∧ (∀ x ∈ st.blacklist,
        x ∈ (download_child E opt upos parent depth start_url_parsed st).sets.blacklist)
    ∧ (∀ (E2 : Externals) (opt2 : Options) (upos2 : urlpos) (parent2 : Url)
          (depth2 : Int) (start2 : Url) (st2 : CrawlSets),
        url_unescape upos2.url.url = url_unescape upos.url.url →
        (∀ x ∈ (download_child E opt upos parent depth start_url_parsed st).sets.blacklist,
          x ∈ st2.blacklist) →
        (download_child E opt upos parent depth start_url_parsed st).reason
            = reject_reason.WG_RR_ROBOTS →
        (download_child E2 opt2 upos2 parent2 depth2 start2 st2).reason
            = reject_reason.WG_RR_BLACKLIST) := by
  refine ⟨?_, ?_, ?_⟩
  · intro hrob
    rw [download_child_robots_adds E opt upos parent depth start_url_parsed st hrob]
    simp [blacklist_contains, blacklist_add]
  · intro x hx
    rcases download_child_blacklist_cases E opt upos parent depth start_url_parsed st
      with hc | hc <;> rw [hc]
    · exact hx
    · exact List.mem_cons_of_mem _ hx
  · intro E2 opt2 upos2 parent2 depth2 start2 st2 hdec hsub hrob
    apply download_child_blacklisted
    have h1 : url_unescape upos.url.url
        ∈ (download_child E opt upos parent depth start_url_parsed st).sets.blacklist := by
      rw [download_child_robots_adds E opt upos parent depth start_url_parsed st hrob]
      simp [blacklist_add]
    have h2 := hsub _ h1
    simp only [blacklist_contains, hdec]
    exact List.elem_eq_true_of_mem h2

/-- Externals where every path is disallowed by robots and the robots
fetch fails (so the dummy spec is installed). -/
def extRobotsDeny : Externals :=
  { extPermissive with res_match_path := fun _ _ => false }

/-- C5 witness: a concrete ROBOTS rejection whose URL is then found in
the seen-set, and a repeat call on the returned state answers
BLACKLIST. -/
theorem download_child_robots_then_blacklist_witness :
    (download_child extRobotsDeny { optBase with use_robots := true }
        (uposOf urlChildSame) urlStartA 0 urlStartA emptySets).reason
        = reject_reason.WG_RR_ROBOTS
    ∧ blacklist_contains
        (download_child extRobotsDeny { optBase with use_robots := true }
          (uposOf urlChildSame) urlStartA 0 urlStartA emptySets).sets.blacklist
        (uposOf urlChildSame).url.url = true
    ∧ (download_child extRobotsDeny { optBase with use_robots := true }
        (uposOf urlChildSame) urlStartA 0 urlStartA
        (download_child extRobotsDeny { optBase with use_robots := true }
          (uposOf urlChildSame) urlStartA 0 urlStartA emptySets).sets).reason
        = reject_reason.WG_RR_BLACKLIST := by
  have h := download_child_robots_then_blacklist extRobotsDeny
    { optBase with use_robots := true } (uposOf urlChildSame) urlStartA 0
    urlStartA emptySets
  refine ⟨rfl, h.1 rfl, ?_⟩
  exact h.2.2 extRobotsDeny { optBase with use_robots := true }
    (uposOf urlChildSame) urlStartA 0 urlStartA _ rfl (fun x hx => hx) rfl

/-- C7: seen-set insertion and membership both operate on the
percent-decoded form of their argument: after adding s1, any s2 with the
same decoded form tests as contained, and membership depends only on the
decoded form. -/
theorem blacklist_decoded_form (bl : List String) (s1 s2 : String)
    (h : url_unescape s1 = url_unescape s2) :
    blacklist_contains (blacklist_add bl s1) s2 = true
    ∧ blacklist_contains bl s1 = blacklist_contains bl s2 := by
  constructor
  · simp [blacklist_contains, blacklist_add, h]
  · simp [blacklist_contains, h]

/-- C7 witness: two encodings of the same URL collapse to one seen-set
entry. -/
theorem blacklist_decoded_form_witness :
    url_unescape "/x%2F" = url_unescape "/x/"
    ∧ blacklist_contains (blacklist_add [] "/x%2F") "/x/" = true := by
  have h : url_unescape "/x%2F" = url_unescape "/x/" := by decide
  exact ⟨h, (blacklist_decoded_form [] "/x%2F" "/x/" h).1⟩

/-! ### The suffix accept/reject rule (C8) -/

/-- A RULES answer can only come from the suffix rule, so it implies that
rule's full condition: non-empty file component, no non-leaf-HTML
exemption, and acceptable() failing. -/
theorem download_child_rules_cond (E : Externals) (opt : Options)
    (upos : urlpos) (parent : Url) (depth : Int) (start_url_parsed : Url)
    (st : CrawlSets) :
    (download_child E opt upos parent depth start_url_parsed st).reason
        = reject_reason.WG_RR_RULES →
    upos.url.file ≠ ""
    ∧ ¬(E.has_html_suffix_p upos.url.file
          ∧ (opt.reclevel = INFINITE_RECURSION
              ∨ depth < opt.reclevel - 1
              ∨ opt.page_requisites))
    ∧ ¬E.acceptable upos.url.file := by
  simp only [download_child]
  by_cases h1 : blacklist_contains st.blacklist upos.url.url
  · simp only [if_pos h1]
    exact fun h => reject_reason.noConfusion h
  simp only [if_neg h1]
  by_cases h2 : opt.https_only ∧ upos.url.scheme ≠ url_scheme.SCHEME_HTTPS
  · simp only [if_pos h2]
    exact fun h => reject_reason.noConfusion h
  simp only [if_neg h2]
  by_cases h3 : ¬schemes_are_similar_p upos.url.scheme url_scheme.SCHEME_HTTP
      ∧ ¬((upos.url.scheme = url_scheme.SCHEME_FTP
            ∨ upos.url.scheme = url_scheme.SCHEME_FTPS)
          ∧ opt.follow_ftp)
  · simp only [if_pos h3]
    exact fun h => reject_reason.noConfusion h
  simp only [if_neg h3]
  by_cases h4 : schemes_are_similar_p upos.url.scheme url_scheme.SCHEME_HTTP
      ∧ opt.relative_only ∧ ¬upos.link_relative_p
  · simp only [if_pos h4]
    exact fun h => reject_reason.noConfusion h
  simp only [if_neg h4]
  by_cases h5 : ¬E.accept_domain upos.url
  · simp only [if_pos h5]
    exact fun h => reject_reason.noConfusion h
  simp only [if_neg h5]
  by_cases h6 : opt.no_parent
      ∧ schemes_are_similar_p upos.url.scheme start_url_parsed.scheme
      ∧ strcasecmp_eq upos.url.host start_url_parsed.host
      ∧ (upos.url.scheme ≠ start_url_parsed.scheme
          ∨ upos.url.port = start_url_parsed.port)
      ∧ ¬(opt.page_requisites ∧ upos.link_inline_p)
      ∧ ¬E.subdir_p start_url_parsed.dir upos.url.dir
  · simp only [if_pos h6]
    exact fun h => reject_reason.noConfusion h
  simp only [if_neg h6]
  by_cases h7 : (opt.includes ∨ opt.excludes) ∧ ¬E.accdir upos.url.dir
  · simp only [if_pos h7]
    exact fun h => reject_reason.noConfusion h
  simp only [if_neg h7]
  by_cases h8 : ¬E.accept_url upos.url.url
  · simp only [if_pos h8]
    exact fun h => reject_reason.noConfusion h
  simp only [if_neg h8]
  by_cases h9 : upos.url.file ≠ ""
      ∧ ¬(E.has_html_suffix_p upos.url.file
            ∧ (opt.reclevel = INFINITE_RECURSION
                ∨ depth < opt.reclevel - 1
                ∨ opt.page_requisites))
      ∧ ¬E.acceptable upos.url.file
  · simp only [if_pos h9]
    exact fun _ => h9
  simp only [if_neg h9]
  by_cases h10 : schemes_are_similar_p upos.url.scheme parent.scheme
      ∧ ¬opt.spanhost
      ∧ ¬strcasecmp_eq parent.host upos.url.host
  · simp only [if_pos h10]
    exact fun h => reject_reason.noConfusion h
  simp only [if_neg h10]
  by_cases h11 : opt.use_robots
      ∧ schemes_are_similar_p upos.url.scheme url_scheme.SCHEME_HTTP
  · simp only [if_pos h11]
    cases hg : res_get_specs st.robots upos.url.host upos.url.port with
    | some specs =>
      by_cases h12 : ¬E.res_match_path specs upos.url.path
      · simp only [if_pos h12]
        exact fun h => reject_reason.noConfusion h
      · simp only [if_neg h12]
        exact fun h => reject_reason.noConfusion h
    | none =>
      cases hr : E.res_retrieve_file upos.url with
      | some rfile =>
        by_cases h12 : ¬E.res_match_path (RobotSpecs.fromFile rfile) upos.url.path
        · simp only [if_pos h12]
          exact fun h => reject_reason.noConfusion h
        · simp only [if_neg h12]
          exact fun h => reject_reason.noConfusion h
      | none =>
        by_cases h12 : ¬E.res_match_path RobotSpecs.dummy upos.url.path
        · simp only [if_pos h12]
          exact fun h => reject_reason.noConfusion h
        · simp only [if_neg h12]
          exact fun h => reject_reason.noConfusion h
  · simp only [if_neg h11]
    exact fun h => reject_reason.noConfusion h

/-- C8: the suffix rule never yields RULES for a directory-like URL (empty
file component), never yields RULES for a file with an HTML suffix when
recursion is infinite, the parent depth is below reclevel - 1, or
page-requisites is on; and when rules 1-8 pass, the file component is
non-empty and not exempt, a file failing acceptable() yields RULES. -/
theorem download_child_suffix_rule (E : Externals) (opt : Options)
    (upos : urlpos) (parent : Url) (depth : Int) (start_url_parsed : Url)
    (st : CrawlSets) :
    (upos.url.file = "" →
      (download_child E opt upos parent depth start_url_parsed st).reason
        ≠ reject_reason.WG_RR_RULES)
    ∧ (E.has_html_suffix_p upos.url.file = true →
        (opt.reclevel = INFINITE_RECURSION ∨ depth < opt.reclevel - 1
          ∨ opt.page_requisites = true) →
        (download_child E opt upos parent depth start_url_parsed st).reason
          ≠ reject_reason.WG_RR_RULES)
    ∧ (rule_blacklist st upos = none → rule_nothttps opt upos = none →
        rule_scheme opt upos = none → rule_relative opt upos = none →
        rule_domain E upos = none →
        rule_no_parent E opt upos start_url_parsed = none →
        rule_list E opt upos = none → rule_regex E upos = none →
        upos.url.file ≠ "" →
        ¬(E.has_html_suffix_p upos.url.file = true
            ∧ (opt.reclevel = INFINITE_RECURSION ∨ depth < opt.reclevel - 1
                ∨ opt.page_requisites = true)) →
        E.acceptable upos.url.file = false →
        (download_child E opt upos parent depth start_url_parsed st).reason
          = reject_reason.WG_RR_RULES) := by
  refine ⟨?_, ?_, ?_⟩
  · intro hfile hR
    exact (download_child_rules_cond E opt upos parent depth start_url_parsed
      st hR).1 hfile
  · intro hsuf hexc hR
    exact (download_child_rules_cond E opt upos parent depth start_url_parsed
      st hR).2.1 ⟨hsuf, hexc⟩
  · intro hb hh hs hrel hd hnp hl hrx hfile hexc hacc
    simp only [rule_blacklist] at hb
    simp only [rule_nothttps] at hh
    simp only [rule_scheme] at hs
    simp only [rule_relative] at hrel
    simp only [rule_domain] at hd
    simp only [rule_no_parent] at hnp
    simp only [rule_list] at hl
    simp only [rule_regex] at hrx
    have h1 := opt_rule_none hb
    have h2 := opt_rule_none hh
    have h3 := opt_rule_none hs
    have h4 := opt_rule_none hrel
    have h5 := opt_rule_none hd
    have h6 := opt_rule_none hnp
    have h7 := opt_rule_none hl
    have h8 := opt_rule_none hrx
    simp only [download_child]
    simp only [if_neg h1, if_neg h2, if_neg h3, if_neg h4, if_neg h5, if_neg h6,
      if_neg h7, if_neg h8]
    rw [if_pos ⟨hfile, hexc, by simp [hacc]⟩]

/-- Externals for the suffix-rule witness: everything permitted except the
suffix predicate, which rejects every file. -/
def extRejectSuffix : Externals :=
  { extPermissive with acceptable := fun _ => false }

/-- A child URL whose file component is a non-HTML leaf. -/
def urlChildZip : Url :=
  { scheme := url_scheme.SCHEME_HTTP, host := "h", port := 80,
    path := "/a/x.zip", dir := "/a", file := "x.zip", user := none,
    url := "http://h/a/x.zip" }

/-- C8 witness: a non-HTML file failing acceptable() is rejected RULES
when the earlier rules pass. -/
theorem download_child_suffix_rule_witness :
    (download_child extRejectSuffix optBase (uposOf urlChildZip) urlStartA 0
        urlStartA emptySets).reason = reject_reason.WG_RR_RULES :=
  (download_child_suffix_rule extRejectSuffix optBase (uposOf urlChildZip)
      urlStartA 0 urlStartA emptySets).2.2
    rfl rfl rfl rfl rfl rfl rfl rfl (by decide) (by simp [extRejectSuffix, extPermissive]) rfl

/-! ### The redirect arbiter (C3) -/

/-- C3: when the admission filter admits the redirect target (SUCCESS) or
rejects it only through the local inclusion rules (LIST, REGEX),
descend_redirect answers SUCCESS and registers the redirect URL in the
seen-set; any other rejection reason is passed through unchanged, and the
caller then abandons descent for the item. -/
theorem descend_redirect_spec (E : Externals) (opt : Options)
    (redirected : String) (orig_parsed : Url) (depth : Int)
    (start_url_parsed : Url) (st : CrawlSets) :
    (((download_child E opt (redirect_upos E redirected) orig_parsed depth
          start_url_parsed st).reason = reject_reason.WG_RR_SUCCESS
        ∨ (download_child E opt (redirect_upos E redirected) orig_parsed depth
            start_url_parsed st).reason = reject_reason.WG_RR_LIST
        ∨ (download_child E opt (redirect_upos E redirected) orig_parsed depth
            start_url_parsed st).reason = reject_reason.WG_RR_REGEX) →
      ((descend_redirect E opt redirected orig_parsed depth start_url_parsed
          st).reason = reject_reason.WG_RR_SUCCESS
        ∧ blacklist_contains
            (descend_redirect E opt redirected orig_parsed depth start_url_parsed
              st).sets.blacklist
            (E.url_parse redirected).url = true))
    ∧ ((download_child E opt (redirect_upos E redirected) orig_parsed depth
          start_url_parsed st).reason ≠ reject_reason.WG_RR_SUCCESS →
        (download_child E opt (redirect_upos E redirected) orig_parsed depth
          start_url_parsed st).reason ≠ reject_reason.WG_RR_LIST →
        (download_child E opt (redirect_upos E redirected) orig_parsed depth
          start_url_parsed st).reason ≠ reject_reason.WG_RR_REGEX →
        descend_redirect E opt redirected orig_parsed depth start_url_parsed st
          = download_child E opt (redirect_upos E redirected) orig_parsed depth
              start_url_parsed st) := by
  constructor
  · intro h
    simp only [descend_redirect]
    rcases h with h | h | h
    · rw [if_pos h]
      exact ⟨h, by simp [blacklist_contains, blacklist_add]⟩
    · rw [if_neg (by rw [h]; decide), if_pos (Or.inl h)]
      exact ⟨rfl, by simp [blacklist_contains, blacklist_add]⟩
    · rw [if_neg (by rw [h]; decide), if_pos (Or.inr h)]
      exact ⟨rfl, by simp [blacklist_contains, blacklist_add]⟩
  · intro hS hL hR
    simp only [descend_redirect]
    rw [if_neg hS, if_neg (fun hc => hc.elim hL hR)]

/-- C3 witness: an admitted redirect target is descended into and
registered in the seen-set. -/
theorem descend_redirect_spec_witness :
    (descend_redirect extPermissive optBase "http://h/r" urlStartA 0 urlStartA
        emptySets).reason = reject_reason.WG_RR_SUCCESS
    ∧ blacklist_contains
        (descend_redirect extPermissive optBase "http://h/r" urlStartA 0
          urlStartA emptySets).sets.blacklist
        (extPermissive.url_parse "http://h/r").url = true :=
  (descend_redirect_spec extPermissive optBase "http://h/r" urlStartA 0
      urlStartA emptySets).1 (Or.inl rfl)

/-! ### Robots fetched at most once per (host, port) (C4) -/

/-- One admission-filter invocation as the crawl performs it: the child
record, its parent, and the parent's depth. -/
structure DCCall where
  upos : urlpos
  parent : Url
  depth : Int

/-- Thread a sequence of download_child calls through the crawl state,
collecting every (host, port) key for which the external robots retrieve
hook res_retrieve_file was invoked. -/
def run_download_children (E : Externals) (opt : Options)
    (start_url_parsed : Url) :
    List DCCall → CrawlSets → CrawlSets × List (String × Int)
  | [], st => (st, [])
  | c :: cs, st =>
    let r := download_child E opt c.upos c.parent c.depth start_url_parsed st
    let rest := run_download_children E opt start_url_parsed cs r.sets
    (rest.1, r.robots_fetched ++ rest.2)

/-- Lookup after registration: the registered key answers the new spec,
any other key falls through. -/
theorem res_get_specs_register (cache : RobotsCache) (host : String)
    (port : Int) (specs : RobotSpecs) (h2 : String) (p2 : Int) :
    res_get_specs (res_register_specs cache host port specs) h2 p2
      = if (host, port) = (h2, p2) then some specs
        else res_get_specs cache h2 p2 := rfl

/-- Registered (host, port) keys stay registered across a download_child
call. -/
theorem download_child_robots_mono (E : Externals) (opt : Options)
    (upos : urlpos) (parent : Url) (depth : Int) (start_url_parsed : Url)
    (st : CrawlSets) (h : String) (p : Int)
    (hs : (res_get_specs st.robots h p).isSome = true) :
    (res_get_specs
      (download_child E opt upos parent depth start_url_parsed st).sets.robots
      h p).isSome = true := by
  rcases download_child_result_cases E opt upos parent depth start_url_parsed st
    with ⟨r, hne, heq⟩ | heq | ⟨specs, hn, heq | heq⟩
  · rw [heq]; exact hs
  · rw [heq]; exact hs
  · rw [heq]
    simp only [res_get_specs_register]
    split_ifs <;> simp [hs]
  · rw [heq]
    simp only [res_get_specs_register]
    split_ifs <;> simp [hs]

/-- Unregistered (host, port) keys after a download_child call were also
unregistered before it: the cache only grows. -/
theorem download_child_robots_antimono (E : Externals) (opt : Options)
    (upos : urlpos) (parent : Url) (depth : Int) (start_url_parsed : Url)
    (st : CrawlSets) (h : String) (p : Int)
    (hs : res_get_specs
      (download_child E opt upos parent depth start_url_parsed st).sets.robots
      h p = none) :
    res_get_specs st.robots h p = none := by
  rcases download_child_result_cases E opt upos parent depth start_url_parsed st
    with ⟨r, hne, heq⟩ | heq | ⟨specs, hn, heq | heq⟩
  · rw [heq] at hs; exact hs
  · rw [heq] at hs; exact hs
  · rw [heq] at hs
    simp only [res_get_specs_register] at hs
    split_ifs at hs with hk
    exact hs
  · rw [heq] at hs
    simp only [res_get_specs_register] at hs
    split_ifs at hs with hk
    exact hs

/-- A download_child call fetches robots at most for its own (host, port),
only when it is unregistered, and leaves it registered. -/
theorem download_child_fetch_cases (E : Externals) (opt : Options)
    (upos : urlpos) (parent : Url) (depth : Int) (start_url_parsed : Url)
    (st : CrawlSets) :
    (download_child E opt upos parent depth start_url_parsed st).robots_fetched
        = []
    ∨ ((download_child E opt upos parent depth start_url_parsed st).robots_fetched
          = [(upos.url.host, upos.url.port)]
        ∧ res_get_specs st.robots upos.url.host upos.url.port = none
        ∧ (res_get_specs
            (download_child E opt upos parent depth start_url_parsed st).sets.robots
            upos.url.host upos.url.port).isSome = true) := by
  rcases download_child_result_cases E opt upos parent depth start_url_parsed st
    with ⟨r, hne, heq⟩ | heq | ⟨specs, hn, heq | heq⟩
  · rw [heq]; left; rfl
  · rw [heq]; left; rfl
  · rw [heq]; right
    exact ⟨rfl, hn, by simp [res_get_specs_register]⟩
  · rw [heq]; right
    exact ⟨rfl, hn, by simp [res_get_specs_register]⟩

/-- Registered keys stay registered across a whole call sequence. -/
theorem run_download_children_robots_mono (E : Externals) (opt : Options)
    (start_url_parsed : Url) (calls : List DCCall) :
    ∀ (st : CrawlSets) (h : String) (p : Int),
      (res_get_specs st.robots h p).isSome = true →
      (res_get_specs
        (run_download_children E opt start_url_parsed calls st).1.robots
        h p).isSome = true := by
  induction calls with
  | nil => intro st h p hs; exact hs
  | cons c cs ih =>
    intro st h p hs
    simp only [run_download_children]
    exact ih _ h p
      (download_child_robots_mono E opt c.upos c.parent c.depth start_url_parsed
        st h p hs)

/-- Invariant of a call sequence: every fetched key was unregistered when
the sequence started and is registered when it ends, and no key is fetched
twice. -/
theorem run_download_children_invariant (E : Externals) (opt : Options)
    (start_url_parsed : Url) (calls : List DCCall) :
    ∀ (st : CrawlSets),
      ((run_download_children E opt start_url_parsed calls st).2).Nodup
      ∧ ∀ hp ∈ (run_download_children E opt start_url_parsed calls st).2,
          res_get_specs st.robots hp.1 hp.2 = none
          ∧ (res_get_specs
              (run_download_children E opt start_url_parsed calls st).1.robots
              hp.1 hp.2).isSome = true := by
  induction calls with
  | nil =>
    intro st
    simp [run_download_children]
  | cons c cs ih =>
    intro st
    simp only [run_download_children]
    rcases download_child_fetch_cases E opt c.upos c.parent c.depth
      start_url_parsed st with hf | ⟨hf, hnone, hreg⟩
    · rw [hf]
      simp only [List.nil_append]
      refine ⟨(ih _).1, ?_⟩
      intro hp hm
      have hrest := (ih _).2 hp hm
      exact ⟨download_child_robots_antimono E opt c.upos c.parent c.depth
        start_url_parsed st hp.1 hp.2 hrest.1, hrest.2⟩
    · rw [hf]
      simp only [List.singleton_append]
      constructor
      · refine List.Nodup.cons ?_ (ih _).1
        intro hmem
        have hrest := (ih _).2 _ hmem
        rw [hrest.1] at hreg
        cases hreg
      · intro hp hm
        rcases List.mem_cons.mp hm with hm | hm
        · subst hm
          exact ⟨hnone,
            run_download_children_robots_mono E opt start_url_parsed cs _ _ _ hreg⟩
        · have hrest := (ih _).2 hp hm
          exact ⟨download_child_robots_antimono E opt c.upos c.parent c.depth
            start_url_parsed st hp.1 hp.2 hrest.1, hrest.2⟩

/-- C4: across any sequence of admission-filter calls of a crawl, the
external robots retrieve hook is invoked at most once per (host, port)
pair, and every pair it was invoked for ends up registered in the robots
cache, so later robots checks use the cached spec. -/
theorem robots_fetched_at_most_once (E : Externals) (opt : Options)
    (start_url_parsed : Url) (calls : List DCCall) (st : CrawlSets) :
    ((run_download_children E opt start_url_parsed calls st).2).Nodup
    ∧ ∀ hp ∈ (run_download_children E opt start_url_parsed calls st).2,
        (res_get_specs
          (run_download_children E opt start_url_parsed calls st).1.robots
          hp.1 hp.2).isSome = true :=
  ⟨(run_download_children_invariant E opt start_url_parsed calls st).1,
   fun hp hm =>
     ((run_download_children_invariant E opt start_url_parsed calls st).2 hp hm).2⟩

/-! ### The crawl loop retrieve_tree (C6, C9, C10) -/

/-- The status codes of retrieve_tree and the fetcher that the loop
distinguishes (uerr_t of wget.h): RETROK, the fatal FWRITEERR, the quota
result QUOTEXC, and every other fetch error collapsed into one value. -/
inductive uerr_t where
  | RETROK
  | FWRITEERR
  | QUOTEXC
  | OTHERERR
deriving DecidableEq, Repr

/-- Outcome of one retrieve_url call: the status, the downloaded local
file (if any), the redirect target (if any), the RETROKF / TEXTHTML /
TEXTCSS bits of the dt flags, and the bytes added to
total_downloaded_bytes. -/
structure FetchResult where
  status : uerr_t
  file : Option String
  redirected : Option String
  retrokf : Bool
  texthtml : Bool
  textcss : Bool
  bytes : Int
deriving Repr

/-- The external collaborators of the crawl loop on top of those of the
admission filter: the fetcher, the downloaded-URL/HTML/CSS maps (a null C
table is the everywhere-empty map), the two link extractors (the HTML one
also returns the meta-nofollow flag), and URL printing with credentials
hidden. -/
structure LoopExternals extends Externals where
  retrieve_url : Url → Option String → FetchResult
  dl_url_file_map : String → Option String
  downloaded_html_set : String → Bool
  downloaded_css_set : String → Bool
  get_urls_html : String → Url → List urlpos × Bool
  get_urls_css_file : String → Url → List urlpos
  url_string_auth_hide : Url → String

/-- A queue element of recur.c: the URL, the referer, the BFS depth, and
the two extraction hints. -/
structure queue_element where
  url : Url
  referer : Option String
  depth : Int
  html_allowed : Bool
  css_allowed : Bool
deriving Repr

/-- Observable state of the crawl loop: the FIFO queue, the seen-set and
robots cache, the rolling status, the byte counter, plus two traces (URLs
passed to retrieve_url, and (url, depth) pairs enqueued as children) that
record the events the spec talks about. -/
structure LoopState where
  queue : List queue_element
  sets : CrawlSets
  status : uerr_t
  total_downloaded_bytes : Int
  fetch_trace : List String
  enqueue_trace : List (String × Int)

/-- Descend decision when the URL is reused from dl_url_file_map
(recur.c lines 277-296): is_css_bool is the CSS-set test and is computed
first, so it wins when both sets contain the file.  Returns
(descend, is_css). -/
def cached_descend (X : LoopExternals) (html_allowed css_allowed : Bool)
    (file : String) : Bool × Bool :=
  let is_css_bool := css_allowed && X.downloaded_css_set file
  if is_css_bool || (html_allowed && X.downloaded_html_set file) then
    (true, is_css_bool)
  else
    (false, false)

/-- Descend decision after a fresh fetch (recur.c lines 305-321): the
HTML test runs first, then the CSS test overrides it, because css_allowed
may override an incorrect content type.  Returns (descend, is_css). -/
def fresh_descend (html_allowed css_allowed fileSome statusOk retrokf
    texthtml textcss : Bool) : Bool × Bool :=
  let d1 : Bool × Bool :=
    if html_allowed && fileSome && statusOk && retrokf && texthtml then
      (true, false)
    else
      (false, false)
  if fileSome && statusOk && retrokf && (textcss || css_allowed) then
    (true, true)
  else
    d1

/-- The depth gate of retrieve_tree (lines 352-376): past reclevel with
finite recursion, the page-requisites two-level leaf rule keeps descend
with dash_p_leaf_HTML set at depths reclevel and reclevel + 1, otherwise
descend is cleared.  Returns (descend, dash_p_leaf_HTML). -/
def depth_gate (opt : Options) (descend : Bool) (depth : Int) : Bool × Bool :=
  if descend ∧ depth ≥ opt.reclevel ∧ opt.reclevel ≠ INFINITE_RECURSION then
    if opt.page_requisites ∧ (depth = opt.reclevel ∨ depth = opt.reclevel + 1) then
      (descend, true)
    else
      (false, false)
  else
    (descend, false)

/-- The child walk of retrieve_tree (lines 408-443): skip ignored links
and, on a dash-p leaf, non-inline links; run the admission filter; on
SUCCESS enqueue the child at depth + 1 with the referer and add it to the
seen-set; on rejection only the filter's state effects remain (the log
write is output-only). -/
def process_children (E : Externals) (opt : Options) (parent : Url)
    (depth : Int) (start_url_parsed : Url) (dash_p_leaf_HTML : Bool)
    (referer_url : String) : List urlpos → LoopState → LoopState
  | [], st => st
  | child :: rest, st =>
    if child.ignore_when_downloading then
      process_children E opt parent depth start_url_parsed dash_p_leaf_HTML
        referer_url rest st
    else if dash_p_leaf_HTML && !child.link_inline_p then
      process_children E opt parent depth start_url_parsed dash_p_leaf_HTML
        referer_url rest st
    else
      let r := download_child E opt child parent depth start_url_parsed st.sets
      if r.reason = reject_reason.WG_RR_SUCCESS then
        process_children E opt parent depth start_url_parsed dash_p_leaf_HTML
          referer_url rest
          { st with
            queue := st.queue ++ [{ url := child.url
                                    referer := some referer_url
                                    depth := depth + 1
                                    html_allowed := child.link_expect_html
                                    css_allowed := child.link_expect_css }]
            sets := { r.sets with
                      blacklist := blacklist_add r.sets.blacklist child.url.url }
            enqueue_trace := st.enqueue_trace ++ [(child.url.url, depth + 1)] }
      else
        process_children E opt parent depth start_url_parsed dash_p_leaf_HTML
          referer_url rest { st with sets := r.sets }

/-- One breadth-first pass of retrieve_tree (lines 249-478), fuel-bounded:
check quota, check the rolling status, dequeue, fetch or reuse, decide
descent, arbitrate a redirect, apply the depth gate, extract links with
the CSS or HTML extractor (dropping all children on meta nofollow under
use_robots), and walk the children. -/
def retrieve_tree_loop (X : LoopExternals) (opt : Options)
    (start_url_parsed : Url) : Nat → LoopState → LoopState
  | 0, st => st
  | fuel + 1, st =>
    if opt.quota ≠ 0 ∧ st.total_downloaded_bytes > opt.quota then st
    else if st.status = uerr_t.FWRITEERR then st
    else
      match st.queue with
      | [] => st
      | item :: qrest =>
        let referer_url : String :=
          if (item.url.user).isSome then X.url_string_auth_hide item.url
          else item.url.url
        match X.dl_url_file_map item.url.url with
        | some f =>
          let dc := cached_descend X item.html_allowed item.css_allowed f
          let g := depth_gate opt dc.1 item.depth
          let st1 : LoopState := { st with queue := qrest }
          let st2 :=
            if g.1 then
              let ext :=
                if dc.2 then (X.get_urls_css_file f item.url, false)
                else X.get_urls_html f item.url
              let children := if opt.use_robots ∧ ext.2 then [] else ext.1
              process_children X.toExternals opt item.url item.depth
                start_url_parsed g.2 referer_url children st1
            else st1
          retrieve_tree_loop X opt start_url_parsed fuel st2
        | none =>
          let fr := X.retrieve_url item.url item.referer
          let st1 : LoopState :=
            { st with
              queue := qrest
              status := fr.status
              total_downloaded_bytes := st.total_downloaded_bytes + fr.bytes
              fetch_trace := st.fetch_trace ++ [item.url.url] }
          let d0 := fresh_descend item.html_allowed item.css_allowed
              fr.file.isSome (decide (fr.status = uerr_t.RETROK)) fr.retrokf
              fr.texthtml fr.textcss
          let rd : Bool × LoopState :=
            match fr.redirected with
            | some redirected =>
              if d0.1 then
                let dres := descend_redirect X.toExternals opt redirected
                    item.url item.depth start_url_parsed st1.sets
                if dres.reason = reject_reason.WG_RR_SUCCESS then
                  (true, { st1 with
                           sets := { dres.sets with
                                     blacklist := blacklist_add dres.sets.blacklist
                                                    item.url.url } })
                else
                  (false, { st1 with sets := dres.sets })
              else (d0.1, st1)
            | none => (d0.1, st1)
          let g := depth_gate opt rd.1 item.depth
          let st3 :=
            if g.1 then
              let ext :=
                if d0.2 then (X.get_urls_css_file (fr.file.getD "") item.url, false)
                else X.get_urls_html (fr.file.getD "") item.url
              let children := if opt.use_robots ∧ ext.2 then [] else ext.1
              process_children X.toExternals opt item.url item.depth
                start_url_parsed g.2 referer_url children rd.2
            else rd.2
          retrieve_tree_loop X opt start_url_parsed fuel st3

/-- The entry point retrieve_tree: enqueue the duplicated start URL at
depth 0 with html_allowed set, blacklist its URL string, run the loop,
and return QUOTEXC if the quota was exceeded, FWRITEERR if the rolling
status is the fatal write error, RETROK otherwise (with the final state
for observation). -/
def retrieve_tree (X : LoopExternals) (opt : Options) (start_url_parsed : Url)
    (fuel : Nat) (init_bytes : Int) : uerr_t × LoopState :=
  let st0 : LoopState :=
    { queue := [{ url := start_url_parsed
                  referer := none
                  depth := 0
                  html_allowed := true
                  css_allowed := false }]
      sets := { blacklist := blacklist_add [] start_url_parsed.url, robots := [] }
      status := uerr_t.RETROK
      total_downloaded_bytes := init_bytes
      fetch_trace := []
      enqueue_trace := [] }
  let fin := retrieve_tree_loop X opt start_url_parsed fuel st0
  (if opt.quota ≠ 0 ∧ fin.total_downloaded_bytes > opt.quota then uerr_t.QUOTEXC
   else if fin.status = uerr_t.FWRITEERR then uerr_t.FWRITEERR
   else uerr_t.RETROK,
   fin)

/-- C6: quota exceedance and the fatal write status each stop the loop
before the next dequeue (the loop returns its state unchanged, so nothing
further is dequeued or fetched), and retrieve_tree returns QUOTEXC when
the quota was exceeded, FWRITEERR when the rolling status is the fatal
write error, and OK (RETROK) otherwise. -/
theorem retrieve_tree_termination_spec (X : LoopExternals) (opt : Options)
    (start_url_parsed : Url) :
    (∀ (fuel : Nat) (st : LoopState),
        (opt.quota ≠ 0 ∧ st.total_downloaded_bytes > opt.quota)
            ∨ st.status = uerr_t.FWRITEERR →
        retrieve_tree_loop X opt start_url_parsed fuel st = st)
    ∧ ∀ (fuel : Nat) (init_bytes : Int),
        ((opt.quota ≠ 0
            ∧ (retrieve_tree X opt start_url_parsed fuel init_bytes).2.total_downloaded_bytes
                > opt.quota) →
          (retrieve_tree X opt start_url_parsed fuel init_bytes).1 = uerr_t.QUOTEXC)
        ∧ (¬(opt.quota ≠ 0
              ∧ (retrieve_tree X opt start_url_parsed fuel init_bytes).2.total_downloaded_bytes
                  > opt.quota) →
            (retrieve_tree X opt start_url_parsed fuel init_bytes).2.status
                = uerr_t.FWRITEERR →
            (retrieve_tree X opt start_url_parsed fuel init_bytes).1 = uerr_t.FWRITEERR)
        ∧ (¬(opt.quota ≠ 0
              ∧ (retrieve_tree X opt start_url_parsed fuel init_bytes).2.total_downloaded_bytes
                  > opt.quota) →
            (retrieve_tree X opt start_url_parsed fuel init_bytes).2.status
                ≠ uerr_t.FWRITEERR →
            (retrieve_tree X opt start_url_parsed fuel init_bytes).1 = uerr_t.RETROK) := by
  constructor
  · intro fuel st h
    cases fuel with
    | zero => rfl
    | succ n =>
      rcases h with h | h
      · simp only [retrieve_tree_loop]
        rw [if_pos h]
      · simp only [retrieve_tree_loop]
        by_cases hquota : opt.quota ≠ 0 ∧ st.total_downloaded_bytes > opt.quota
        · rw [if_pos hquota]
        · rw [if_neg hquota, if_pos h]
  · intro fuel init_bytes
    refine ⟨?_, ?_, ?_⟩
    · intro h
      simp only [retrieve_tree] at h ⊢
      rw [if_pos h]
    · intro hnq h
      simp only [retrieve_tree] at hnq h ⊢
      rw [if_neg hnq, if_pos h]
    · intro hnq h
      simp only [retrieve_tree] at hnq h ⊢
      rw [if_neg hnq, if_neg h]

/-- A stub fetcher environment for concrete loop evaluations: every fetch
succeeds as 100 bytes of HTML with no redirect, nothing is cached, the
extractors find nothing. -/
def extLoopStub : LoopExternals :=
  { toExternals := extPermissive
    retrieve_url := fun _ _ =>
      { status := uerr_t.RETROK, file := some "f", redirected := none,
        retrokf := true, texthtml := true, textcss := false, bytes := 100 }
    dl_url_file_map := fun _ => none
    downloaded_html_set := fun _ => false
    downloaded_css_set := fun _ => false
    get_urls_html := fun _ _ => ([], false)
    get_urls_css_file := fun _ _ => []
    url_string_auth_hide := fun u => u.url }

/-- A loop state whose rolling status is the fatal write error. -/
def stFatal : LoopState :=
  { queue := []
    sets := { blacklist := [], robots := [] }
    status := uerr_t.FWRITEERR
    total_downloaded_bytes := 0
    fetch_trace := []
    enqueue_trace := [] }

/-- C6 witness: a fatal-status state passes through the loop unchanged,
and a crawl that exceeds a 50-byte quota returns QUOTEXC. -/
theorem retrieve_tree_termination_spec_witness :
    retrieve_tree_loop extLoopStub optBase urlStartA 5 stFatal = stFatal
    ∧ (retrieve_tree extLoopStub { optBase with quota := 50 } urlStartA 5 100).1
        = uerr_t.QUOTEXC := by
  constructor
  · exact (retrieve_tree_termination_spec extLoopStub optBase urlStartA).1 5
      stFatal (Or.inr rfl)
  · exact ((retrieve_tree_termination_spec extLoopStub
      { optBase with quota := 50 } urlStartA).2 5 100).1 ⟨by decide, by decide⟩

/-- C10: whenever the CSS descent condition holds, the item is marked
is_css (so the loop parses it with the CSS extractor rather than the HTML
one), even when the HTML descent condition holds as well; in the
fresh-fetch branch css_allowed forces CSS parsing on any successful fetch
even when the content type indicates HTML. -/
theorem css_descend_preference (X : LoopExternals)
    (html_allowed css_allowed fileSome statusOk retrokf texthtml
      textcss : Bool) (f : String) :
    ((css_allowed && X.downloaded_css_set f) = true →
      (html_allowed && X.downloaded_html_set f) = true →
      cached_descend X html_allowed css_allowed f = (true, true))
    ∧ ((html_allowed && fileSome && statusOk && retrokf && texthtml) = true →
        (fileSome && statusOk && retrokf && (textcss || css_allowed)) = true →
        fresh_descend html_allowed css_allowed fileSome statusOk retrokf
          texthtml textcss = (true, true))
    ∧ (css_allowed = true → fileSome = true → statusOk = true →
        retrokf = true →
        fresh_descend html_allowed css_allowed fileSome statusOk retrokf
          texthtml textcss = (true, true)) := by
  refine ⟨?_, ?_, ?_⟩
  · intro hc hh
    simp [cached_descend, hc]
  · intro hh hc
    simp [fresh_descend, hc]
  · intro h1 h2 h3 h4
    simp [fresh_descend, h1, h2, h3, h4]

/-- C10 witness: a successful fetch with css_allowed set and an HTML
content type is still marked is_css. -/
theorem css_descend_preference_witness :
    fresh_descend true true true true true true false = (true, true) :=
  (css_descend_preference extLoopStub true true true true true true false
      "f").2.2 rfl rfl rfl rfl

/-- A loop invocation with an empty queue returns its state unchanged. -/
theorem retrieve_tree_loop_empty_queue (X : LoopExternals) (opt : Options)
    (start_url_parsed : Url) (fuel : Nat) (st : LoopState)
    (h : st.queue = []) :
    retrieve_tree_loop X opt start_url_parsed fuel st = st := by
  cases fuel with
  | zero => rfl
  | succ n =>
    simp only [retrieve_tree_loop, h]
    split_ifs <;> rfl

/-- With reclevel = 0 and page-requisites off, the depth gate clears the
descend flag at every non-negative depth. -/
theorem depth_gate_reclevel_zero (opt : Options) (descend : Bool)
    (depth : Int) (h0 : opt.reclevel = 0) (hp : opt.page_requisites = false)
    (hd : 0 ≤ depth) :
    depth_gate opt descend depth = (false, false) := by
  cases descend with
  | false => simp [depth_gate]
  | true =>
    simp only [depth_gate]
    rw [if_pos ⟨trivial, by rw [h0]; exact hd, by rw [h0]; decide⟩,
      if_neg (by simp [hp])]

/-- C9: with reclevel 0 and page-requisites off, a crawl fetches only the
seed URL. -/
theorem reclevel_zero_fetches_seed_only (X : LoopExternals) (opt : Options)
    (start_url_parsed : Url) (fuel : Nat)
    (h0 : opt.reclevel = 0) (hp : opt.page_requisites = false)
    (hq : opt.quota = 0)
    (hdl : X.dl_url_file_map start_url_parsed.url = none)
    (hfuel : 2 ≤ fuel) :
    (retrieve_tree X opt start_url_parsed fuel 0).2.fetch_trace
        = [start_url_parsed.url]
    ∧ (retrieve_tree X opt start_url_parsed fuel 0).2.enqueue_trace = []
    ∧ (retrieve_tree X opt start_url_parsed fuel 0).2.queue = [] := by
  obtain ⟨n, rfl⟩ : ∃ n, fuel = n + 2 := ⟨fuel - 2, by omega⟩
  have hgate : ∀ d : Bool, depth_gate opt d 0 = (false, false) :=
    fun d => depth_gate_reclevel_zero opt d 0 h0 hp le_rfl
  have hstate : ∀ st : LoopState, st.queue = [] →
      st.fetch_trace = [start_url_parsed.url] → st.enqueue_trace = [] →
      ((retrieve_tree_loop X opt start_url_parsed (n + 1) st).fetch_trace
          = [start_url_parsed.url]
        ∧ (retrieve_tree_loop X opt start_url_parsed (n + 1) st).enqueue_trace
            = []
        ∧ (retrieve_tree_loop X opt start_url_parsed (n + 1) st).queue = []) := by
    intro st h1 h2 h3
    rw [retrieve_tree_loop_empty_queue X opt start_url_parsed (n + 1) st h1]
    exact ⟨h2, h3, h1⟩
  simp only [retrieve_tree]
  rw [show n + 2 = (n + 1) + 1 from rfl]
  rw [retrieve_tree_loop]
  simp [hq, hdl, hgate]
  exact hstate _
    (by split <;> (try split_ifs) <;> rfl)
    (by split <;> (try split_ifs) <;> rfl)
    (by split <;> (try split_ifs) <;> rfl)

/-- C9 witness: a concrete reclevel-0 crawl dequeues and fetches exactly
the seed, enqueues nothing, and ends with an empty queue. -/
theorem reclevel_zero_fetches_seed_only_witness :
    (retrieve_tree extLoopStub { optBase with reclevel := 0 } urlStartA 2
        0).2.fetch_trace = [urlStartA.url]
    ∧ (retrieve_tree extLoopStub { optBase with reclevel := 0 } urlStartA 2
        0).2.enqueue_trace = []
    ∧ (retrieve_tree extLoopStub { optBase with reclevel := 0 } urlStartA 2
        0).2.queue = [] :=
  reclevel_zero_fetches_seed_only extLoopStub { optBase with reclevel := 0 }
    urlStartA 2 rfl rfl rfl rfl (by decide)

end WgetRecur
